import Mathlib

/-! Shallow embedding of the `winlock` repository (`winlock/lock.py`, class
`DirLock`) together with proofs about its lock acquisition and release
protocol.

Modelling choices:
* The filesystem is an explicit state (`FS`): the list of existing paths, the
  list of open file descriptors (paired with the path they refer to), a
  counter supplying fresh descriptors, and an optional injected fault for
  `os.open`, modelling non-`EEXIST` failures such as `EACCES` or `ENOENT`.
* `os.open(path, O_CREAT|O_EXCL|O_RDWR)` is `osOpenExcl`: with a fault set it
  fails with that errno; otherwise it fails with `EEXIST` when the path
  already exists, and otherwise atomically creates the file and returns a
  fresh descriptor.  `os.close` and `os.unlink` are `osClose` and `osUnlink`;
  `none` models the raised `OSError`.
* `time.time()` readings are an oracle `times : Nat → ℚ`; reading `0` is the
  `start` value recorded on entry to `acquire`, and reading `k + 1` is the
  reading taken by the elapsed-time check in iteration `k` of the retry loop.
  `time.sleep(self.delay)` is modelled by counting sleeps.  The `while True`
  loop receives a fuel argument; result `none` means the fuel ran out.
* Exceptions are explicit result values.  In `AcquireError`,
  `lockUnavailable` is `DirLockException('Could not acquire lock on ...')`
  (it carries the directory interpolated into the message), `lockTimeout` is
  `DirLockException('Timeout occurred.')`, and `osError` is the re-raised
  non-`EEXIST` `OSError` carrying its errno.  In `ReleaseError`, `noHandle`
  is the `AttributeError` raised if `self.fd` was never assigned,
  `closeFailed` and `unlinkFailed` are `OSError`s from `os.close`/`os.unlink`.
-/

/-- Errno values of `OSError`; only `EEXIST` is inspected by the code
(`err.errno != errno.EEXIST`). -/
inductive Errno where
  | EEXIST
  | ENOENT
  | EACCES
  | EBADF
  | other (code : Nat)
deriving DecidableEq

/-- Result of `os.open(path, os.O_CREAT|os.O_EXCL|os.O_RDWR)`. -/
inductive OpenResult where
  | ok (fd : Nat)
  | err (e : Errno)
deriving DecidableEq

/-- Filesystem state: existing paths, open descriptors (descriptor, path),
a counter for fresh descriptors, and an optional injected `os.open` fault
(modelling permission/missing-directory errors). -/
structure FS where
  files : List String
  openFds : List (Nat × String)
  nextFd : Nat
  fault : Option Errno
deriving DecidableEq

/-- `os.open(p, O_CREAT|O_EXCL|O_RDWR)`: with a fault injected it raises that
errno; otherwise it raises `EEXIST` when `p` exists, else it atomically
creates `p` and returns a fresh open descriptor. -/
def osOpenExcl (fs : FS) (p : String) : OpenResult × FS :=
  match fs.fault with
  | some e => (.err e, fs)
  | none =>
    if p ∈ fs.files then (.err .EEXIST, fs)
    else (.ok fs.nextFd,
      { fs with
        files := p :: fs.files
        openFds := (fs.nextFd, p) :: fs.openFds
        nextFd := fs.nextFd + 1 })

/-- Whether descriptor `fd` is currently open. -/
def fdIsOpen (fs : FS) (fd : Nat) : Bool :=
  fs.openFds.any (fun q => q.1 == fd)

/-- `os.close(fd)`: `none` models the raised `OSError` (`EBADF`). -/
def osClose (fs : FS) (fd : Nat) : Option FS :=
  if fdIsOpen fs fd then
    some { fs with openFds := fs.openFds.filter (fun q => !(q.1 == fd)) }
  else none

/-- `os.unlink(p)`: `none` models the raised `OSError` (`ENOENT`). -/
def osUnlink (fs : FS) (p : String) : Option FS :=
  if p ∈ fs.files then
    some { fs with files := fs.files.filter (fun q => !(q == p)) }
  else none

/-- Index just past the last `'/'` in `l` (Python `p.rfind('/') + 1`),
`0` when there is no separator. -/
def rfindSlash (l : List Char) : Nat :=
  (l.foldl (fun acc c => (if c = '/' then acc.2 + 1 else acc.1, acc.2 + 1))
    ((0 : Nat), (0 : Nat))).1

/-- Strip trailing `'/'` characters (Python `head.rstrip('/')`). -/
def rstripSlash (l : List Char) : List Char :=
  (l.reverse.dropWhile (fun c => c = '/')).reverse

/-- `os.path.split` (the forward-slash variant used on the lock paths):
split after the last separator; the head keeps no trailing separators unless
it consists only of separators. -/
def pathSplit (p : String) : String × String :=
  let l := p.toList
  let i := rfindSlash l
  let head := l.take i
  let tail := l.drop i
  let h := if head.any (fun c => c ≠ '/') then rstripSlash head else head
  (String.mk h, String.mk tail)

/-- `os.path.basename(p)`, which Python defines as `split(p)[1]`. -/
def basename (p : String) : String := (pathSplit p).2

/-- `os.path.join(a, b)` for two components: `b` if `b` is absolute,
otherwise `a ++ b` when `a` is empty or already ends in a separator, else
`a ++ "/" ++ b`. -/
def pathJoin (a b : String) : String :=
  if b.toList.head? = some '/' then b
  else if a.toList = [] ∨ a.toList.getLast? = some '/' then a ++ b
  else a ++ "/" ++ b

/-- The `DirLock` instance state: the fields set by `__init__` plus `fd`
(`self.fd`, assigned only on a successful `os.open`; `none` models the
attribute not having been assigned yet). -/
structure DirLock where
  is_locked : Bool
  lockfile : String
  directory : String
  timeout : ℚ
  delay : ℚ
  fd : Option Nat
deriving DecidableEq

/-- `DirLock.__init__(directory, timeout, delay)`:
`self.lockfile = os.path.join(directory, os.path.split(directory)[1]+'.lock')`,
no filesystem access, unlocked. -/
def DirLock.init (directory : String) (timeout delay : ℚ) : DirLock :=
  { is_locked := false
    lockfile := pathJoin directory ((pathSplit directory).2 ++ ".lock")
    directory := directory
    timeout := timeout
    delay := delay
    fd := none }

/-- The exceptions `acquire` can raise. -/
inductive AcquireError where
  | osError (cause : Errno)
  | lockUnavailable (directory : String)
  | lockTimeout
deriving DecidableEq

/-- Outcome of `acquire`: the (updated) instance and filesystem, either after
success or carried alongside the raised exception. -/
inductive AcquireResult where
  | success (lock : DirLock) (fs : FS)
  | failure (e : AcquireError) (lock : DirLock) (fs : FS)
deriving DecidableEq

/-- The instance carried by an `AcquireResult`. -/
def AcquireResult.lock : AcquireResult → DirLock
  | .success l _ => l
  | .failure _ l _ => l

/-- The filesystem carried by an `AcquireResult`. -/
def AcquireResult.fs : AcquireResult → FS
  | .success _ f => f
  | .failure _ _ f => f

/-- The `while True` body of `DirLock.acquire`, iterated with fuel.  `k`
counts the sleeps performed so far (the loop iteration index); on an
`EEXIST` failure the filesystem is unchanged, exactly as when `os.open`
raises.  The second component of the result is the number of sleeps
performed before returning. -/
def acquireLoop (l : DirLock) (fs : FS) (start : ℚ) (times : Nat → ℚ)
    (k : Nat) : Nat → Option (AcquireResult × Nat)
  | 0 => none
  | fuel + 1 =>
    match osOpenExcl fs l.lockfile with
    | (.ok fd, fs1) =>
      some (.success { l with is_locked := true, fd := some fd } fs1, k)
    | (.err e, _) =>
      if e ≠ Errno.EEXIST then
        some (.failure (.osError e) l fs, k)
      else if l.timeout = 0 then
        some (.failure (.lockUnavailable l.directory) l fs, k)
      else if times (k + 1) - start ≥ l.timeout then
        some (.failure .lockTimeout l fs, k)
      else
        acquireLoop l fs start times (k + 1) fuel

/-- `DirLock.acquire(self)`: record `start = time.time()` and run the retry
loop. -/
def DirLock.acquire (l : DirLock) (fs : FS) (times : Nat → ℚ) (fuel : Nat) :
    Option (AcquireResult × Nat) :=
  acquireLoop l fs (times 0) times 0 fuel

/-- The exceptions `release` can raise (it is not guarded by any handler). -/
inductive ReleaseError where
  | noHandle
  | closeFailed (cause : Errno)
  | unlinkFailed (cause : Errno)
deriving DecidableEq

/-- Outcome of `release`: note that on an exception `self.is_locked = False`
has not been executed, so the instance is returned unchanged. -/
inductive ReleaseResult where
  | ok (lock : DirLock) (fs : FS)
  | error (e : ReleaseError) (lock : DirLock) (fs : FS)
deriving DecidableEq

/-- The instance carried by a `ReleaseResult`. -/
def ReleaseResult.lock : ReleaseResult → DirLock
  | .ok l _ => l
  | .error _ l _ => l

/-- The filesystem carried by a `ReleaseResult`. -/
def ReleaseResult.fs : ReleaseResult → FS
  | .ok _ f => f
  | .error _ _ f => f

/-- Whether a `ReleaseResult` is a raised exception. -/
def ReleaseResult.isErr : ReleaseResult → Bool
  | .ok _ _ => false
  | .error _ _ _ => true

/-- `DirLock.release(self)`: if locked, `os.close(self.fd)`,
`os.unlink(self.lockfile)`, `self.is_locked = False`; otherwise nothing. -/
def DirLock.release (l : DirLock) (fs : FS) : ReleaseResult :=
  if l.is_locked then
    match l.fd with
    | none => .error .noHandle l fs
    | some fd =>
      match osClose fs fd with
      | none => .error (.closeFailed .EBADF) l fs
      | some fs1 =>
        match osUnlink fs1 l.lockfile with
        | none => .error (.unlinkFailed .ENOENT) l fs1
        | some fs2 => .ok { l with is_locked := false } fs2
  else .ok l fs

/-- `DirLock.__enter__(self)`: `if not self.is_locked: self.acquire()`, then
return `self`. -/
def DirLock.enter (l : DirLock) (fs : FS) (times : Nat → ℚ) (fuel : Nat) :
    Option (AcquireResult × Nat) :=
  if l.is_locked then some (.success l fs, 0) else l.acquire fs times fuel

/-- `DirLock.__exit__(self, type, value, traceback)`:
`if self.is_locked: self.release()`.  The exception arguments are unused by
the code and `None` is returned, so a body exception is never suppressed. -/
def DirLock.exitScope (l : DirLock) (fs : FS) : ReleaseResult :=
  if l.is_locked then l.release fs else .ok l fs

/-- `DirLock.__del__(self)` calls `self.release()`; the Python runtime
ignores exceptions raised inside a destructor, so a release error is
swallowed here (the instance and filesystem are kept as the failed release
left them). -/
def DirLock.del (l : DirLock) (fs : FS) : DirLock × FS :=
  match l.release fs with
  | .ok l2 fs2 => (l2, fs2)
  | .error _ l2 fs2 => (l2, fs2)

/-- Outcome of running the body of a `with` statement: a value or a raised
exception. -/
inductive BodyOutcome (ε α : Type) where
  | val (a : α)
  | exc (e : ε)
deriving DecidableEq

/-- What the caller of a `with DirLock(...)` statement observes. -/
inductive WithResult (ε α : Type) where
  | ok (a : α) (lock : DirLock) (fs : FS)
  | bodyRaised (e : ε) (lock : DirLock) (fs : FS)
  | exitRaised (e : ReleaseError) (lock : DirLock) (fs : FS)
  | enterRaised (e : AcquireError) (lock : DirLock) (fs : FS)
deriving DecidableEq

/-- Python semantics of `with l: body`: run `__enter__` (an exception there
propagates and the body never runs); run the body; run `__exit__`.  If
`__exit__` itself raises, that exception propagates, replacing any body
exception; otherwise, since `__exit__` returns `None`, a body exception
continues propagating unchanged and a body value is returned. -/
def withLock {ε α : Type} (l : DirLock) (fs : FS) (times : Nat → ℚ)
    (fuel : Nat) (body : DirLock → FS → BodyOutcome ε α × FS) :
    Option (WithResult ε α) :=
  match l.enter fs times fuel with
  | none => none
  | some (.failure e l1 fs1, _) => some (.enterRaised e l1 fs1)
  | some (.success l1 fs1, _) =>
    match body l1 fs1 with
    | (out, fs2) =>
      match l1.exitScope fs2 with
      | .error re l2 fs3 => some (.exitRaised re l2 fs3)
      | .ok l2 fs3 =>
        match out with
        | .val a => some (.ok a l2 fs3)
        | .exc e => some (.bodyRaised e l2 fs3)

/-- States reachable from construction by the instance's own operations:
`acquire`, `release`, scope-enter and scope-exit (in each case with the
instance and filesystem the operation returned, whether it succeeded or
raised). -/
inductive Reach : DirLock → FS → Prop where
  | init (d : String) (t dl : ℚ) (fs : FS) : Reach (DirLock.init d t dl) fs
  | acquireStep (l : DirLock) (fs : FS) (times : Nat → ℚ) (fuel k : Nat)
      (r : AcquireResult) (h : Reach l fs)
      (e : l.acquire fs times fuel = some (r, k)) : Reach r.lock r.fs
  | releaseStep (l : DirLock) (fs : FS) (r : ReleaseResult) (h : Reach l fs)
      (e : l.release fs = r) : Reach r.lock r.fs
  | enterStep (l : DirLock) (fs : FS) (times : Nat → ℚ) (fuel k : Nat)
      (r : AcquireResult) (h : Reach l fs)
      (e : l.enter fs times fuel = some (r, k)) : Reach r.lock r.fs
  | exitStep (l : DirLock) (fs : FS) (r : ReleaseResult) (h : Reach l fs)
      (e : l.exitScope fs = r) : Reach r.lock r.fs

/-- The data-model invariant: a locked instance has a descriptor that is open
on the lock file, and the lock file exists on disk. -/
def lockInv (l : DirLock) (fs : FS) : Prop :=
  l.is_locked = true →
    ∃ f, l.fd = some f ∧ (f, l.lockfile) ∈ fs.openFds ∧ l.lockfile ∈ fs.files

/-- Concrete empty filesystem. -/
def fs0 : FS := ⟨[], [], 0, none⟩

/-- Concrete filesystem whose `os.open` fails with `EACCES`. -/
def fsFault : FS := ⟨[], [], 0, some .EACCES⟩

/-- Concrete filesystem after the lock file of `/tmp/data` has been created
and opened on descriptor `0`. -/
def fsAfter0 : FS := ⟨["/tmp/data/data.lock"], [(0, "/tmp/data/data.lock")], 1, none⟩

/-- Concrete filesystem after the lock file of `/tmp/data` has been deleted
again and descriptor `0` closed. -/
def fsReleased : FS := ⟨[], [], 1, none⟩

/-- Concrete filesystem in which descriptor `0` is still open on the lock
file of `/tmp/data` but the file itself has been removed by another actor. -/
def fsGone : FS := ⟨[], [(0, "/tmp/data/data.lock")], 1, none⟩

/-- Concrete clock: every reading is `0`. -/
def timesZero : Nat → ℚ := fun _ => 0

/-- Concrete clock: the start reading is `0`, every later reading is `10`. -/
def timesTen : Nat → ℚ := fun n => if n = 0 then 0 else 10

/-- Concrete instance for `/tmp/data` that holds the lock (as left by a
successful `acquire` on `fs0`). -/
def lockTenLocked : DirLock := ⟨true, "/tmp/data/data.lock", "/tmp/data", 10, 1, some 0⟩

/-- Concrete instance for `/tmp/data` after `release` (the stale descriptor
number stays in `fd`, as in the code). -/
def lockTenReleased : DirLock := ⟨false, "/tmp/data/data.lock", "/tmp/data", 10, 1, some 0⟩

/-- Concrete zero-timeout instance for `/tmp/data` that holds the lock. -/
def lockZeroLocked : DirLock := ⟨true, "/tmp/data/data.lock", "/tmp/data", 0, 1, some 0⟩

/-- Concrete scope body that raises `42` and leaves the filesystem alone. -/
def bodyRaise : DirLock → FS → BodyOutcome Nat Nat × FS :=
  fun _ f => (.exc 42, f)

/-- Concrete scope body that raises `42` after the lock file has been removed
by another actor (modelled by the body deleting it from the filesystem). -/
def bodyDrop : DirLock → FS → BodyOutcome Nat Nat × FS :=
  fun l f => (.exc 42, { f with files := f.files.filter (fun q => !(q == l.lockfile)) })

/-! Helper lemmas about the filesystem operations and the retry loop. -/

theorem osOpenExcl_fault {fs : FS} {e : Errno} (p : String) (hf : fs.fault = some e) :
    osOpenExcl fs p = (.err e, fs) := by
  simp [osOpenExcl, hf]

theorem osOpenExcl_mem {fs : FS} {p : String} (hf : fs.fault = none)
    (hm : p ∈ fs.files) : osOpenExcl fs p = (.err .EEXIST, fs) := by
  simp [osOpenExcl, hf, hm]

theorem osOpenExcl_absent {fs : FS} {p : String} (hf : fs.fault = none)
    (hm : p ∉ fs.files) :
    osOpenExcl fs p = (.ok fs.nextFd,
      { fs with
        files := p :: fs.files
        openFds := (fs.nextFd, p) :: fs.openFds
        nextFd := fs.nextFd + 1 }) := by
  simp [osOpenExcl, hf, hm]

theorem DirLock.acquire_eq (l : DirLock) (fs : FS) (times : Nat → ℚ) (fuel : Nat) :
    l.acquire fs times fuel = acquireLoop l fs (times 0) times 0 fuel := rfl

theorem acquireLoop_err_step {l : DirLock} {fs : FS} {e : Errno}
    (start : ℚ) (times : Nat → ℚ) (k fuel : Nat)
    (hop : osOpenExcl fs l.lockfile = (.err e, fs)) :
    acquireLoop l fs start times k (fuel + 1) =
      if e ≠ Errno.EEXIST then some (.failure (.osError e) l fs, k)
      else if l.timeout = 0 then some (.failure (.lockUnavailable l.directory) l fs, k)
      else if times (k + 1) - start ≥ l.timeout then some (.failure .lockTimeout l fs, k)
      else acquireLoop l fs start times (k + 1) fuel := by
  simp only [acquireLoop, hop]

theorem acquireLoop_ok_step {l : DirLock} {fs : FS} {fd : Nat} {fs1 : FS}
    (start : ℚ) (times : Nat → ℚ) (k fuel : Nat)
    (hop : osOpenExcl fs l.lockfile = (.ok fd, fs1)) :
    acquireLoop l fs start times k (fuel + 1) =
      some (.success { l with is_locked := true, fd := some fd } fs1, k) := by
  simp only [acquireLoop, hop]

/-- Step of the retry loop when the lock file exists and `timeout` is
nonzero: check the clock, then either fail with `lockTimeout` or sleep and
go round again. -/
theorem acquireLoop_exists_step {l : DirLock} {fs : FS}
    (start : ℚ) (times : Nat → ℚ) (k fuel : Nat)
    (hm : l.lockfile ∈ fs.files) (hf : fs.fault = none) (ht : l.timeout ≠ 0) :
    acquireLoop l fs start times k (fuel + 1) =
      if times (k + 1) - start ≥ l.timeout then some (.failure .lockTimeout l fs, k)
      else acquireLoop l fs start times (k + 1) fuel := by
  rw [acquireLoop_err_step start times k fuel (osOpenExcl_mem hf hm)]
  rw [if_neg (by simp), if_neg ht]

/-- Any result of the retry loop is either the success obtained by creating
the lock file in `fs` (which never changes across `EEXIST` iterations), or a
failure that leaves instance and filesystem unchanged. -/
theorem acquireLoop_result {l : DirLock} {fs : FS} {start : ℚ} {times : Nat → ℚ} :
    ∀ {fuel k : Nat} {r : AcquireResult} {s : Nat},
      acquireLoop l fs start times k fuel = some (r, s) →
      r = AcquireResult.success { l with is_locked := true, fd := some fs.nextFd }
            { fs with
              files := l.lockfile :: fs.files
              openFds := (fs.nextFd, l.lockfile) :: fs.openFds
              nextFd := fs.nextFd + 1 } ∨
      (∃ e, r = AcquireResult.failure e l fs) := by
  intro fuel
  induction fuel with
  | zero => intro k r s h; simp [acquireLoop] at h
  | succ n ih =>
    intro k r s h
    rcases Option.eq_none_or_eq_some fs.fault with hf | ⟨e, hf⟩
    · by_cases hm : l.lockfile ∈ fs.files
      · rw [acquireLoop_err_step start times k n (osOpenExcl_mem hf hm)] at h
        rw [if_neg (by simp)] at h
        by_cases h2 : l.timeout = 0
        · rw [if_pos h2] at h
          simp only [Option.some.injEq, Prod.mk.injEq] at h
          exact Or.inr ⟨_, h.1.symm⟩
        · rw [if_neg h2] at h
          by_cases h3 : times (k + 1) - start ≥ l.timeout
          · rw [if_pos h3] at h
            simp only [Option.some.injEq, Prod.mk.injEq] at h
            exact Or.inr ⟨_, h.1.symm⟩
          · rw [if_neg h3] at h
            exact ih h
      · rw [acquireLoop_ok_step start times k n (osOpenExcl_absent hf hm)] at h
        simp only [Option.some.injEq, Prod.mk.injEq] at h
        exact Or.inl h.1.symm
    · rw [acquireLoop_err_step start times k n (osOpenExcl_fault _ hf)] at h
      by_cases h1 : e = Errno.EEXIST
      · rw [if_neg (not_not_intro h1)] at h
        by_cases h2 : l.timeout = 0
        · rw [if_pos h2] at h
          simp only [Option.some.injEq, Prod.mk.injEq] at h
          exact Or.inr ⟨_, h.1.symm⟩
        · rw [if_neg h2] at h
          by_cases h3 : times (k + 1) - start ≥ l.timeout
          · rw [if_pos h3] at h
            simp only [Option.some.injEq, Prod.mk.injEq] at h
            exact Or.inr ⟨_, h.1.symm⟩
          · rw [if_neg h3] at h
            exact ih h
      · rw [if_pos h1] at h
        simp only [Option.some.injEq, Prod.mk.injEq] at h
        exact Or.inr ⟨_, h.1.symm⟩

/-- When the lock file exists (and no fault is injected), every result of the
retry loop is a failure: `lockUnavailable` exactly when `timeout == 0` (and
then with no further sleep), `lockTimeout` otherwise. -/
theorem acquireLoop_mem_result {l : DirLock} {fs : FS} {start : ℚ} {times : Nat → ℚ}
    (hm : l.lockfile ∈ fs.files) (hf : fs.fault = none) :
    ∀ {fuel k : Nat} {r : AcquireResult} {s : Nat},
      acquireLoop l fs start times k fuel = some (r, s) →
      (l.timeout = 0 ∧ r = .failure (.lockUnavailable l.directory) l fs ∧ s = k) ∨
      (l.timeout ≠ 0 ∧ r = .failure .lockTimeout l fs) := by
  intro fuel
  induction fuel with
  | zero => intro k r s h; simp [acquireLoop] at h
  | succ n ih =>
    intro k r s h
    rw [acquireLoop_err_step start times k n (osOpenExcl_mem hf hm)] at h
    rw [if_neg (by simp)] at h
    by_cases h2 : l.timeout = 0
    · rw [if_pos h2] at h
      simp only [Option.some.injEq, Prod.mk.injEq] at h
      exact Or.inl ⟨h2, h.1.symm, h.2.symm⟩
    · rw [if_neg h2] at h
      by_cases h3 : times (k + 1) - start ≥ l.timeout
      · rw [if_pos h3] at h
        simp only [Option.some.injEq, Prod.mk.injEq] at h
        exact Or.inr ⟨h2, h.1.symm⟩
      · rw [if_neg h3] at h
        rcases ih h with ⟨ht0, _, _⟩ | hr
        · exact absurd ht0 h2
        · exact Or.inr hr

/-- When the lock file exists and some reading within the fuel window shows
the timeout elapsed, the retry loop terminates with `lockTimeout`. -/
theorem acquireLoop_mem_terminates {l : DirLock} {fs : FS} {start : ℚ}
    {times : Nat → ℚ} (hm : l.lockfile ∈ fs.files) (hf : fs.fault = none)
    (ht : l.timeout ≠ 0) :
    ∀ (fuel k : Nat), (∃ j, k ≤ j ∧ j < k + fuel ∧ times (j + 1) - start ≥ l.timeout) →
      ∃ s, k ≤ s ∧
        acquireLoop l fs start times k fuel = some (.failure .lockTimeout l fs, s) := by
  intro fuel
  induction fuel with
  | zero =>
    intro k hex
    obtain ⟨j, hkj, hlt, _⟩ := hex
    omega
  | succ n ih =>
    intro k hex
    rw [acquireLoop_exists_step start times k n hm hf ht]
    by_cases hel : times (k + 1) - start ≥ l.timeout
    · exact ⟨k, le_refl k, by rw [if_pos hel]⟩
    · obtain ⟨j, hkj, hlt, hcond⟩ := hex
      have hjk : j ≠ k := fun heq => hel (heq ▸ hcond)
      obtain ⟨s, hks, heq⟩ := ih (k + 1) ⟨j, by omega, by omega, hcond⟩
      exact ⟨s, by omega, by rw [if_neg hel]; exact heq⟩

/-- `release` on an unlocked instance does nothing and cannot fail. -/
theorem release_not_locked {l : DirLock} (fs : FS) (h : l.is_locked = false) :
    l.release fs = .ok l fs := by
  simp [DirLock.release, h]

/-- `release` on a locked instance whose descriptor is open and whose lock
file exists: close the descriptor, delete the file, clear the flag. -/
theorem release_ok_explicit {l : DirLock} {fs : FS} {f : Nat}
    (hl : l.is_locked = true) (hfd : l.fd = some f)
    (hopen : (f, l.lockfile) ∈ fs.openFds) (hmem : l.lockfile ∈ fs.files) :
    l.release fs = .ok { l with is_locked := false }
      { fs with
        openFds := fs.openFds.filter (fun q => !(q.1 == f))
        files := fs.files.filter (fun q => !(q == l.lockfile)) } := by
  have hfo : fdIsOpen fs f = true := by
    simp only [fdIsOpen, List.any_eq_true]
    exact ⟨(f, l.lockfile), hopen, by simp⟩
  simp [DirLock.release, hl, hfd, osClose, hfo, osUnlink, hmem]

/-- `acquire` preserves the invariant: success establishes it, failure leaves
instance and filesystem unchanged. -/
theorem lockInv_acquire {l : DirLock} {fs : FS} {times : Nat → ℚ}
    {fuel : Nat} {r : AcquireResult} {s : Nat} (h : lockInv l fs)
    (he : l.acquire fs times fuel = some (r, s)) : lockInv r.lock r.fs := by
  rw [DirLock.acquire_eq] at he
  rcases acquireLoop_result he with hs | ⟨e, hfail⟩
  · subst hs
    intro _
    refine ⟨fs.nextFd, rfl, ?_, ?_⟩ <;> simp [AcquireResult.lock, AcquireResult.fs]
  · subst hfail
    exact h

/-- `release` preserves the invariant. -/
theorem lockInv_release {l : DirLock} {fs : FS} (h : lockInv l fs)
    (r : ReleaseResult) (he : l.release fs = r) : lockInv r.lock r.fs := by
  cases hl : l.is_locked with
  | false =>
    rw [release_not_locked fs hl] at he
    subst he
    exact h
  | true =>
    obtain ⟨f, hfd, ho, hm⟩ := h hl
    rw [release_ok_explicit hl hfd ho hm] at he
    subst he
    intro hcontra
    simp [ReleaseResult.lock] at hcontra

/-- `__enter__` preserves the invariant. -/
theorem lockInv_enter {l : DirLock} {fs : FS} {times : Nat → ℚ}
    {fuel : Nat} {r : AcquireResult} {s : Nat} (h : lockInv l fs)
    (he : l.enter fs times fuel = some (r, s)) : lockInv r.lock r.fs := by
  by_cases hl : l.is_locked = true
  · simp only [DirLock.enter, hl, if_true, Option.some.injEq, Prod.mk.injEq] at he
    rw [← he.1]
    exact h
  · simp only [DirLock.enter, hl, if_false] at he
    exact lockInv_acquire h he

/-- `__exit__` preserves the invariant. -/
theorem lockInv_exit {l : DirLock} {fs : FS} (h : lockInv l fs)
    (r : ReleaseResult) (he : l.exitScope fs = r) : lockInv r.lock r.fs := by
  by_cases hl : l.is_locked = true
  · rw [DirLock.exitScope, if_pos hl] at he
    exact lockInv_release h r he
  · rw [DirLock.exitScope, if_neg hl] at he
    subst he
    exact h

/-- Every reachable state satisfies the invariant. -/
theorem reach_lockInv {l : DirLock} {fs : FS} (h : Reach l fs) : lockInv l fs := by
  induction h with
  | init d t dl fs =>
    intro hcontra
    simp [DirLock.init] at hcontra
  | acquireStep l fs times fuel k r h e ih => exact lockInv_acquire ih e
  | releaseStep l fs r h e ih => exact lockInv_release ih r e
  | enterStep l fs times fuel k r h e ih => exact lockInv_enter ih e
  | exitStep l fs r h e ih => exact lockInv_exit ih r e

/-- Exact characterization of when `release` raises: the instance is locked
and either `self.fd` was never assigned, or the descriptor is not open, or
the lock file does not exist. -/
theorem release_err_iff (l : DirLock) (fs : FS) :
    (l.release fs).isErr = true ↔
      l.is_locked = true ∧
        (l.fd = none ∨ (∃ f, l.fd = some f ∧ fdIsOpen fs f = false) ∨
          l.lockfile ∉ fs.files) := by
  cases hl : l.is_locked with
  | false => simp [DirLock.release, hl, ReleaseResult.isErr]
  | true =>
    cases hfd : l.fd with
    | none => simp [DirLock.release, hl, hfd, ReleaseResult.isErr]
    | some f =>
      by_cases ho : fdIsOpen fs f = true
      · by_cases hm : l.lockfile ∈ fs.files
        · simp [DirLock.release, hl, hfd, osClose, ho, osUnlink, hm,
            ReleaseResult.isErr]
        · simp [DirLock.release, hl, hfd, osClose, ho, osUnlink, hm,
            ReleaseResult.isErr]
      · simp [DirLock.release, hl, hfd, osClose, ho, ReleaseResult.isErr]

/-- `acquire` never changes `lockfile`. -/
theorem acquire_preserves_lockfile {l : DirLock} {fs : FS} {times : Nat → ℚ}
    {fuel : Nat} {r : AcquireResult} {s : Nat}
    (he : l.acquire fs times fuel = some (r, s)) : r.lock.lockfile = l.lockfile := by
  rw [DirLock.acquire_eq] at he
  rcases acquireLoop_result he with hs | ⟨e, hfail⟩ <;> subst_vars <;>
    simp [AcquireResult.lock]

/-- `release` never changes `lockfile`. -/
theorem release_preserves_lockfile (l : DirLock) (fs : FS) :
    ((l.release fs).lock).lockfile = l.lockfile := by
  cases hl : l.is_locked with
  | false =>
    rw [release_not_locked fs hl]
    rfl
  | true =>
    cases hfd : l.fd with
    | none => simp [DirLock.release, hl, hfd, ReleaseResult.lock]
    | some f =>
      cases hc : osClose fs f with
      | none => simp [DirLock.release, hl, hfd, hc, ReleaseResult.lock]
      | some fs1 =>
        cases hu : osUnlink fs1 l.lockfile with
        | none => simp [DirLock.release, hl, hfd, hc, hu, ReleaseResult.lock]
        | some fs2 => simp [DirLock.release, hl, hfd, hc, hu, ReleaseResult.lock]

/-- First-attempt success of `acquire` when the lock file is absent. -/
theorem acquire_absent {l : DirLock} {fs : FS} (times : Nat → ℚ) (fuel : Nat)
    (hm : l.lockfile ∉ fs.files) (hf : fs.fault = none) :
    l.acquire fs times (fuel + 1) =
      some (.success { l with is_locked := true, fd := some fs.nextFd }
        { fs with
          files := l.lockfile :: fs.files
          openFds := (fs.nextFd, l.lockfile) :: fs.openFds
          nextFd := fs.nextFd + 1 }, 0) := by
  rw [DirLock.acquire_eq, acquireLoop_ok_step _ _ _ _ (osOpenExcl_absent hf hm)]

/-- Immediate `lockUnavailable` failure of `acquire` when the lock file
exists and `timeout == 0`. -/
theorem acquire_mem_zero_timeout {l : DirLock} {fs : FS} (times : Nat → ℚ)
    (fuel : Nat) (ht : l.timeout = 0) (hm : l.lockfile ∈ fs.files)
    (hf : fs.fault = none) :
    l.acquire fs times (fuel + 1) =
      some (.failure (.lockUnavailable l.directory) l fs, 0) := by
  rw [DirLock.acquire_eq,
    acquireLoop_err_step (times 0) times 0 fuel (osOpenExcl_mem hf hm)]
  rw [if_neg (by simp), if_pos ht]

/-- `lockTimeout` failure of `acquire` when the lock file exists, `timeout`
is nonzero, and some clock reading within the fuel window shows the timeout
elapsed. -/
theorem acquire_mem_timeout {l : DirLock} {fs : FS} (times : Nat → ℚ)
    (fuel : Nat) (ht : l.timeout ≠ 0) (hm : l.lockfile ∈ fs.files)
    (hf : fs.fault = none)
    (hex : ∃ j, j < fuel ∧ times (j + 1) - times 0 ≥ l.timeout) :
    ∃ s, l.acquire fs times fuel = some (.failure .lockTimeout l fs, s) := by
  obtain ⟨j, hj, hcond⟩ := hex
  obtain ⟨s, _, heq⟩ :=
    acquireLoop_mem_terminates hm hf ht fuel 0 ⟨j, Nat.zero_le j, by omega, hcond⟩
  exact ⟨s, heq⟩

/-! Claim theorems. -/

/-- Claim C1: whenever the atomic create fails for any filesystem reason
other than "file already exists" (an injected fault `e ≠ EEXIST`), `acquire`
propagates the failure immediately as the re-raised `OSError` (the spec's
`LockIoError`) carrying the underlying errno, at whatever loop iteration it
occurs, without sleeping again and regardless of the timeout value. -/
theorem acquire_io_error_immediate :
    ∀ (l : DirLock) (fs : FS) (start : ℚ) (times : Nat → ℚ) (k fuel : Nat)
      (e : Errno), fs.fault = some e → e ≠ Errno.EEXIST →
      acquireLoop l fs start times k (fuel + 1) =
          some (.failure (.osError e) l fs, k) ∧
        l.acquire fs times (fuel + 1) = some (.failure (.osError e) l fs, 0) := by
  intro l fs start times k fuel e hf he
  constructor
  · rw [acquireLoop_err_step start times k fuel (osOpenExcl_fault _ hf), if_pos he]
  · rw [DirLock.acquire_eq,
      acquireLoop_err_step (times 0) times 0 fuel (osOpenExcl_fault _ hf), if_pos he]

/-- Witness for C1: a permission fault on an empty filesystem fails the very
first attempt with the `EACCES` cause and zero sleeps. -/
theorem acquire_io_error_immediate_witness :
    acquireLoop (DirLock.init "/tmp/data" 10 1) fsFault 0 timesZero 0 1 =
        some (.failure (.osError .EACCES) (DirLock.init "/tmp/data" 10 1) fsFault, 0) ∧
      (DirLock.init "/tmp/data" 10 1).acquire fsFault timesZero 1 =
        some (.failure (.osError .EACCES) (DirLock.init "/tmp/data" 10 1) fsFault, 0) :=
  acquire_io_error_immediate (DirLock.init "/tmp/data" 10 1) fsFault 0 timesZero 0 0
    Errno.EACCES rfl (by decide)

/-- Claim C2: with `timeout == 0`, if the first create attempt fails because
the lock file already exists, `acquire` fails immediately with
`LockUnavailable` (`DirLockException('Could not acquire lock on ...')`),
performing zero sleeps and needing only a single loop iteration. -/
theorem acquire_zero_timeout_fast_fail :
    ∀ (l : DirLock) (fs : FS) (times : Nat → ℚ) (fuel : Nat),
      l.timeout = 0 → l.lockfile ∈ fs.files → fs.fault = none →
      l.acquire fs times (fuel + 1) =
        some (.failure (.lockUnavailable l.directory) l fs, 0) :=
  fun _ _ times fuel ht hm hf => acquire_mem_zero_timeout times fuel ht hm hf

/-- Witness for C2: zero-timeout instance against a held lock file. -/
theorem acquire_zero_timeout_fast_fail_witness :
    (DirLock.init "/tmp/data" 0 1).acquire fsAfter0 timesZero 1 =
      some (.failure (.lockUnavailable "/tmp/data")
        (DirLock.init "/tmp/data" 0 1) fsAfter0, 0) :=
  acquire_zero_timeout_fast_fail (DirLock.init "/tmp/data" 0 1) fsAfter0 timesZero 0
    rfl (by decide) rfl

/-- Claim C3: with `timeout ≠ 0`, a create attempt that fails because the
lock file already exists, at a point where the elapsed time since `start` is
at least `timeout`, makes `acquire` fail with `LockTimeout`
(`DirLockException('Timeout occurred.')`) instead of sleeping and retrying
again (the sleep count stays at `k`). -/
theorem acquire_timeout_elapsed_fails :
    ∀ (l : DirLock) (fs : FS) (start : ℚ) (times : Nat → ℚ) (k fuel : Nat),
      l.lockfile ∈ fs.files → fs.fault = none → l.timeout ≠ 0 →
      times (k + 1) - start ≥ l.timeout →
      acquireLoop l fs start times k (fuel + 1) =
        some (.failure .lockTimeout l fs, k) := by
  intro l fs start times k fuel hm hf ht hel
  rw [acquireLoop_exists_step start times k fuel hm hf ht, if_pos hel]

/-- Witness for C3: a held lock file and a clock that jumps past the
10-second timeout on the first reading. -/
theorem acquire_timeout_elapsed_fails_witness :
    acquireLoop (DirLock.init "/tmp/data" 10 1) fsAfter0 0 timesTen 0 1 =
      some (.failure .lockTimeout (DirLock.init "/tmp/data" 10 1) fsAfter0, 0) :=
  acquire_timeout_elapsed_fails (DirLock.init "/tmp/data" 10 1) fsAfter0 0 timesTen
    0 0 (by decide) rfl (by decide) (by simp [timesTen, DirLock.init])

/-- Counterexample to claim C4 as stated: with the lock held and the lock
file already removed by another actor, the scoped-exit path raises — it
surfaces the `os.unlink` failure from `release` instead of staying silent. -/
theorem scoped_exit_raises_cex :
    lockTenLocked.exitScope fsGone =
      .error (.unlinkFailed .ENOENT) lockTenLocked fsReleased := by decide

/-- Claim C4 as amended: release errors during destruction are swallowed
(`__del__` just runs `release` and the runtime discards any exception), but
the scoped-exit path does surface them — `__exit__` raises exactly when the
lock is held and `release` fails, i.e. the handle is unassigned or not open,
or the lock file no longer exists; with the lock not held it never raises. -/
theorem cleanup_error_surfacing :
    (∀ (l : DirLock) (fs : FS),
      l.del fs = ((l.release fs).lock, (l.release fs).fs)) ∧
    (∀ (l : DirLock) (fs : FS),
      (l.exitScope fs).isErr = true ↔
        l.is_locked = true ∧
          (l.fd = none ∨ (∃ f, l.fd = some f ∧ fdIsOpen fs f = false) ∨
            l.lockfile ∉ fs.files)) := by
  constructor
  · intro l fs
    cases hr : l.release fs with
    | ok l2 fs2 => simp [DirLock.del, hr, ReleaseResult.lock, ReleaseResult.fs]
    | error e l2 fs2 => simp [DirLock.del, hr, ReleaseResult.lock, ReleaseResult.fs]
  · intro l fs
    by_cases hl : l.is_locked = true
    · rw [DirLock.exitScope, if_pos hl]
      exact release_err_iff l fs
    · rw [DirLock.exitScope, if_neg hl]
      simp [ReleaseResult.isErr, hl]

/-- Witness for the amended C4: the concrete raising state, fed through the
characterization. -/
theorem cleanup_error_surfacing_witness :
    lockTenLocked.is_locked = true ∧
      (lockTenLocked.fd = none ∨
        (∃ f, lockTenLocked.fd = some f ∧ fdIsOpen fsGone f = false) ∨
        lockTenLocked.lockfile ∉ fsGone.files) :=
  (cleanup_error_surfacing.2 lockTenLocked fsGone).mp (by decide)

/-- Counterexample to claim C5 as stated: a scope body that raises `42`
after the lock file was removed by another actor. The exit-path `release`
fails, and the caller observes that `unlink` failure — the body's own
failure `42` is replaced, not propagated unchanged. -/
theorem scoped_body_error_replaced_cex :
    withLock (DirLock.init "/tmp/data" 10 1) fs0 timesZero 1 bodyDrop =
      some (.exitRaised (.unlinkFailed .ENOENT) lockTenLocked fsReleased) := by decide

/-- Claim C5 as amended: entering the scope acquires exactly when the
instance is not already locked and exposes the instance itself; exiting calls
`release` exactly when the lock is held; and a failure raised by the scope
body propagates unchanged after cleanup provided the exit-path `release`
itself succeeds (when it fails, its error replaces the body's failure, as
the counterexample shows). -/
theorem scoped_acquisition_semantics :
    (∀ (l : DirLock) (fs : FS) (times : Nat → ℚ) (fuel : Nat),
      l.is_locked = true → l.enter fs times fuel = some (.success l fs, 0)) ∧
    (∀ (l : DirLock) (fs : FS) (times : Nat → ℚ) (fuel : Nat),
      l.is_locked = false → l.enter fs times fuel = l.acquire fs times fuel) ∧
    (∀ (l : DirLock) (fs : FS), l.is_locked = true → l.exitScope fs = l.release fs) ∧
    (∀ (l : DirLock) (fs : FS), l.is_locked = false → l.exitScope fs = .ok l fs) ∧
    (∀ (ε α : Type) (l : DirLock) (fs : FS) (times : Nat → ℚ) (fuel : Nat)
      (body : DirLock → FS → BodyOutcome ε α × FS) (s : Nat) (l1 : DirLock)
      (fs1 : FS) (e : ε) (fs2 : FS) (l2 : DirLock) (fs3 : FS),
      l.enter fs times fuel = some (.success l1 fs1, s) →
      body l1 fs1 = (.exc e, fs2) →
      l1.exitScope fs2 = .ok l2 fs3 →
      withLock l fs times fuel body = some (.bodyRaised e l2 fs3)) := by
  refine ⟨?_, ?_, ?_, ?_, ?_⟩
  · intro l fs times fuel h
    simp [DirLock.enter, h]
  · intro l fs times fuel h
    simp [DirLock.enter, h]
  · intro l fs h
    simp [DirLock.exitScope, h]
  · intro l fs h
    simp [DirLock.exitScope, h]
  · intro ε α l fs times fuel body s l1 fs1 e fs2 l2 fs3 hen hbody hexit
    simp only [withLock, hen, hbody, hexit]

/-- Witness for the amended C5: a body that raises `42` with the lock file
intact; cleanup succeeds and the caller observes exactly `42`. -/
theorem scoped_acquisition_semantics_witness :
    withLock (DirLock.init "/tmp/data" 10 1) fs0 timesZero 1 bodyRaise =
      some (.bodyRaised 42 lockTenReleased fsReleased) :=
  scoped_acquisition_semantics.2.2.2.2 Nat Nat (DirLock.init "/tmp/data" 10 1) fs0
    timesZero 1 bodyRaise 0 lockTenLocked fsAfter0 42 fsAfter0 lockTenReleased
    fsReleased (by decide) (by decide) (by decide)

/-- Claim C6: in every state reachable by construction, `acquire`, `release`,
scope-enter and scope-exit, `is_locked == true` implies the lock file exists
on disk and the stored handle is an open descriptor to it. -/
theorem reachable_lock_invariant :
    ∀ (l : DirLock) (fs : FS), Reach l fs → lockInv l fs :=
  fun _ _ h => reach_lockInv h

/-- Witness for C6: a freshly constructed instance on the empty filesystem
satisfies the invariant. -/
theorem reachable_lock_invariant_witness :
    lockInv (DirLock.init "/tmp/data" 10 1) fs0 :=
  reachable_lock_invariant (DirLock.init "/tmp/data" 10 1) fs0
    (Reach.init "/tmp/data" 10 1 fs0)

/-- Claim C7: from an unlocked instance with no lock file present,
`acquire` succeeds on the first attempt, `release` then succeeds, leaving
`is_locked == false` and no lock file on disk, and a subsequent `acquire`
by any instance on the same lock path (the same one or a fresh one) again
succeeds on its first create attempt. -/
theorem acquire_release_roundtrip :
    ∀ (l : DirLock) (fs : FS) (times : Nat → ℚ) (fuel : Nat),
      l.is_locked = false → l.lockfile ∉ fs.files → fs.fault = none →
      l.acquire fs times (fuel + 1) =
          some (.success { l with is_locked := true, fd := some fs.nextFd }
            { fs with
              files := l.lockfile :: fs.files
              openFds := (fs.nextFd, l.lockfile) :: fs.openFds
              nextFd := fs.nextFd + 1 }, 0) ∧
        DirLock.release { l with is_locked := true, fd := some fs.nextFd }
            { fs with
              files := l.lockfile :: fs.files
              openFds := (fs.nextFd, l.lockfile) :: fs.openFds
              nextFd := fs.nextFd + 1 } =
          .ok { l with is_locked := false, fd := some fs.nextFd }
            { fs with
              files := (l.lockfile :: fs.files).filter (fun q => !(q == l.lockfile))
              openFds := ((fs.nextFd, l.lockfile) :: fs.openFds).filter
                (fun q => !(q.1 == fs.nextFd))
              nextFd := fs.nextFd + 1 } ∧
        l.lockfile ∉
          (l.lockfile :: fs.files).filter (fun q => !(q == l.lockfile)) ∧
        ∀ (m : DirLock) (times2 : Nat → ℚ) (fuel2 : Nat),
          m.lockfile = l.lockfile →
          m.acquire
              { fs with
                files := (l.lockfile :: fs.files).filter (fun q => !(q == l.lockfile))
                openFds := ((fs.nextFd, l.lockfile) :: fs.openFds).filter
                  (fun q => !(q.1 == fs.nextFd))
                nextFd := fs.nextFd + 1 } times2 (fuel2 + 1) =
            some (.success { m with is_locked := true, fd := some (fs.nextFd + 1) }
              { fs with
                files := m.lockfile ::
                  (l.lockfile :: fs.files).filter (fun q => !(q == l.lockfile))
                openFds := (fs.nextFd + 1, m.lockfile) ::
                  ((fs.nextFd, l.lockfile) :: fs.openFds).filter
                    (fun q => !(q.1 == fs.nextFd))
                nextFd := fs.nextFd + 2 }, 0) := by
  intro l fs times fuel hl hm hf
  refine ⟨acquire_absent times fuel hm hf,
    release_ok_explicit rfl rfl (List.mem_cons_self _ _) (List.mem_cons_self _ _),
    by simp [List.mem_filter], ?_⟩
  intro m times2 fuel2 hml
  exact acquire_absent times2 fuel2 (by rw [hml]; simp [List.mem_filter]) hf

/-- Witness for C7: the concrete round trip on `/tmp/data` over the empty
filesystem, with the follow-up acquisition done by the released instance. -/
theorem acquire_release_roundtrip_witness :
    (DirLock.init "/tmp/data" 10 1).acquire fs0 timesZero 1 =
        some (.success lockTenLocked fsAfter0, 0) ∧
      lockTenLocked.release fsAfter0 = .ok lockTenReleased fsReleased ∧
      "/tmp/data/data.lock" ∉ fsReleased.files ∧
      lockTenReleased.acquire fsReleased timesZero 1 =
        some (.success ⟨true, "/tmp/data/data.lock", "/tmp/data", 10, 1, some 1⟩
          ⟨["/tmp/data/data.lock"], [(1, "/tmp/data/data.lock")], 2, none⟩, 0) := by
  have h := acquire_release_roundtrip (DirLock.init "/tmp/data" 10 1) fs0 timesZero 0
    rfl (by decide) rfl
  exact ⟨h.1, h.2.1, h.2.2.1, h.2.2.2 lockTenReleased timesZero 0 rfl⟩

/-- Claim C8: `release` on an instance whose `is_locked` is false is a no-op
that never fails: it returns normally with the instance and the filesystem
unchanged. -/
theorem release_unlocked_noop :
    ∀ (l : DirLock) (fs : FS), l.is_locked = false → l.release fs = .ok l fs :=
  fun _ fs h => release_not_locked fs h

/-- Witness for C8: releasing a freshly constructed instance. -/
theorem release_unlocked_noop_witness :
    (DirLock.init "/tmp/data" 10 1).release fs0 =
      .ok (DirLock.init "/tmp/data" 10 1) fs0 :=
  release_unlocked_noop (DirLock.init "/tmp/data" 10 1) fs0 rfl

/-- Claim C9: the lock-file path set at construction equals the directory
joined with `basename(directory) + ".lock"`, and no later operation
(`acquire`, `release`, scope-enter, scope-exit) ever changes it. -/
theorem lockfile_derived_once :
    (∀ (d : String) (t dl : ℚ),
      (DirLock.init d t dl).lockfile = pathJoin d (basename d ++ ".lock")) ∧
    (∀ (l : DirLock) (fs : FS) (times : Nat → ℚ) (fuel : Nat)
      (r : AcquireResult) (s : Nat),
      l.acquire fs times fuel = some (r, s) → r.lock.lockfile = l.lockfile) ∧
    (∀ (l : DirLock) (fs : FS), ((l.release fs).lock).lockfile = l.lockfile) ∧
    (∀ (l : DirLock) (fs : FS) (times : Nat → ℚ) (fuel : Nat)
      (r : AcquireResult) (s : Nat),
      l.enter fs times fuel = some (r, s) → r.lock.lockfile = l.lockfile) ∧
    (∀ (l : DirLock) (fs : FS), ((l.exitScope fs).lock).lockfile = l.lockfile) := by
  refine ⟨fun d t dl => rfl,
    fun l fs times fuel r s he => acquire_preserves_lockfile he,
    release_preserves_lockfile, ?_, ?_⟩
  · intro l fs times fuel r s he
    by_cases hl : l.is_locked = true
    · simp only [DirLock.enter, hl, if_true, Option.some.injEq, Prod.mk.injEq] at he
      rw [← he.1]
      rfl
    · simp only [DirLock.enter, hl, if_false] at he
      exact acquire_preserves_lockfile he
  · intro l fs
    by_cases hl : l.is_locked = true
    · rw [DirLock.exitScope, if_pos hl]
      exact release_preserves_lockfile l fs
    · rw [DirLock.exitScope, if_neg hl]
      rfl

/-- Witness for C9: a successful concrete acquisition keeps the constructed
lock-file path. -/
theorem lockfile_derived_once_witness :
    (AcquireResult.success lockTenLocked fsAfter0).lock.lockfile =
      (DirLock.init "/tmp/data" 10 1).lockfile :=
  lockfile_derived_once.2.1 (DirLock.init "/tmp/data" 10 1) fs0 timesZero 1
    (.success lockTenLocked fsAfter0) 0 (by decide)

/-- Claim C10: an instance that holds the lock (in a reachable state, so its
own lock file exists) can never re-acquire: every create attempt fails with
`EEXIST`, so `acquire` never succeeds, and the call ends in `lockUnavailable`
when `timeout == 0`, or in `lockTimeout` once the clock passes the timeout
otherwise. -/
theorem locked_instance_acquire_never_succeeds :
    ∀ (l : DirLock) (fs : FS) (times : Nat → ℚ),
      Reach l fs → l.is_locked = true → fs.fault = none →
      (∀ (fuel s : Nat) (l2 : DirLock) (fs2 : FS),
        l.acquire fs times fuel ≠ some (.success l2 fs2, s)) ∧
      (l.timeout = 0 → ∀ fuel : Nat,
        l.acquire fs times (fuel + 1) =
          some (.failure (.lockUnavailable l.directory) l fs, 0)) ∧
      (l.timeout ≠ 0 → ∀ fuel : Nat,
        (∃ j, j < fuel ∧ times (j + 1) - times 0 ≥ l.timeout) →
        ∃ s, l.acquire fs times fuel = some (.failure .lockTimeout l fs, s)) := by
  intro l fs times hreach hl hf
  obtain ⟨f, hfd, ho, hm⟩ := reach_lockInv hreach hl
  refine ⟨?_, ?_, ?_⟩
  · intro fuel s l2 fs2 hcontra
    rw [DirLock.acquire_eq] at hcontra
    rcases acquireLoop_mem_result hm hf hcontra with ⟨_, hr, _⟩ | ⟨_, hr⟩ <;>
      exact absurd hr (by simp)
  · intro ht fuel
    exact acquire_mem_zero_timeout times fuel ht hm hf
  · intro ht fuel hex
    exact acquire_mem_timeout times fuel ht hm hf hex

/-- Witness for C10: a zero-timeout instance that just acquired (a reachable
state) fails its re-acquisition immediately with `lockUnavailable`. -/
theorem locked_instance_acquire_never_succeeds_witness :
    lockZeroLocked.acquire fsAfter0 timesZero 1 =
      some (.failure (.lockUnavailable "/tmp/data") lockZeroLocked fsAfter0, 0) :=
  (locked_instance_acquire_never_succeeds lockZeroLocked fsAfter0 timesZero
    (Reach.acquireStep (DirLock.init "/tmp/data" 0 1) fs0 timesZero 1 0
      (.success lockZeroLocked fsAfter0) (Reach.init "/tmp/data" 0 1 fs0)
      (by decide))
    rfl rfl).2.1 rfl 0
